import Mathlib

/-!
Verification of the record-reconciliation and scoring engine of the
Scholar Pulse Metrics app (`streamlit/app.py`).

Modelling conventions: Python floats are real numbers, Python ints are
`Int`, optional / possibly-`None` values are `Option`, strings are
`String`.  A fallible HTTP call is modelled by an explicit outcome value
handed to the function, so that the data-level reaction of the code to
failure is what gets verified.  Python `round(x, 2)` is modelled as
rounding `x * 100` to the nearest integer and dividing by 100; the
tie-breaking mode is irrelevant to every property proved here.
-/

namespace ScholarMetrics

/-- Python truthiness of an optional integer: `None` and `0` are falsy. -/
def intTruthy (x : Option Int) : Bool := x.getD 0 != 0

/-- Python `a or b` for optional strings: `None` and `""` are falsy, and the
right operand is returned whenever the left is falsy. -/
def pyOrStr (a b : Option String) : Option String :=
  match a with
  | some s => if s = "" then b else some s
  | none => b

/-- Python `str.strip()`: drop whitespace from both ends. -/
def pyStrip (s : String) : String :=
  ⟨((s.data.dropWhile Char.isWhitespace).reverse.dropWhile
      Char.isWhitespace).reverse⟩

/-- `doi_final = (cr.get("DOI") or doi or "").strip()` (app.py line 297):
the Crossref DOI wins, else the DOI extracted from the stub, else `""`. -/
def doi_final (crDOI serpDoi : Option String) : String :=
  pyStrip ((pyOrStr (pyOrStr crDOI serpDoi) (some "")).getD "")

/-- Shape of the `cited_by` field on a profile stub: absent, a dict with an
optional `value` entry, or a bare integer (app.py lines 250-258). -/
inductive CitedBy where
  | absent : CitedBy
  | asDict (value : Option Int) : CitedBy
  | asInt (v : Int) : CitedBy

/-- `cited_by_val` extraction (app.py lines 250-258):
`int(cb.get("value", 0) or 0)` for a dict, the value itself for an int,
`0` otherwise. -/
def extract_cited_by : CitedBy → Int
  | .absent => 0
  | .asDict v => v.getD 0
  | .asInt v => v

/-- Result of `fetch_semanticscholar_by_doi`: `(citationCount, year,
isRetracted)`; the degraded failure value is `(0, none, false)`. -/
structure SSByDoi where
  citationCount : Int
  year : Option Int
  isRetracted : Bool
deriving DecidableEq

/-- Result of `fetch_semanticscholar_by_title`: additionally carries the
`externalIds` dict, modelled by its `DOI` and `doi` entries; the degraded
failure value is `(0, none, false, {})`. -/
structure SSByTitle where
  citationCount : Int
  year : Option Int
  isRetracted : Bool
  extIdsDOI : Option String
  extIdsDoi : Option String
deriving DecidableEq

/-- Outcome of the citation-resolution block (app.py lines 300-312):
final citation count, final DOI and final retraction flag. -/
structure CitationResolution where
  citations : Int
  doiFinal : String
  isRetracted : Bool
deriving DecidableEq

/-- The DOI-based Semantic Scholar lookup runs iff `doi_final` is truthy
(app.py line 302). -/
def doiStepAttempted (doiFinal : String) : Bool := doiFinal != ""

/-- `citations` and `is_retracted` after the (conditional) DOI-based lookup:
the lookup result when a DOI is present, the initial `(0, False)` otherwise
(app.py lines 300-303). -/
def afterDoiStep (doiFinal : String) (byDoi : SSByDoi) : Int × Bool :=
  if doiFinal != "" then (byDoi.citationCount, byDoi.isRetracted) else (0, false)

/-- The guard of the title-based lookup:
`(not doi_final) or (citations == 0 and not is_retracted)` (app.py line 304). -/
def titleStepAttempted (doiFinal : String) (byDoi : SSByDoi) : Bool :=
  (doiFinal == "") ||
    ((afterDoiStep doiFinal byDoi).1 == 0 && !(afterDoiStep doiFinal byDoi).2)

/-- The citation-resolution block (app.py lines 300-312): DOI-based lookup
when a DOI is present; title-based lookup under `titleStepAttempted`, whose
result is merged only when its citation count is truthy (`if sc_cit:`), in
which case it may backfill an unset DOI and ORs in its retraction flag;
finally the stub's inline count when citations are still zero. -/
def resolveCitations (doiFinal : String) (citedByVal : Int)
    (byDoi : SSByDoi) (byTitle : SSByTitle) : CitationResolution :=
  let citations := (afterDoiStep doiFinal byDoi).1
  let isRetracted := (afterDoiStep doiFinal byDoi).2
  let step2 : Int × String × Bool :=
    if titleStepAttempted doiFinal byDoi then
      if byTitle.citationCount != 0 then
        let newDoi :=
          if doiFinal == "" then
            (pyOrStr (pyOrStr byTitle.extIdsDOI byTitle.extIdsDoi)
              (some doiFinal)).getD ""
          else doiFinal
        (byTitle.citationCount, newDoi, isRetracted || byTitle.isRetracted)
      else (citations, doiFinal, isRetracted)
    else (citations, doiFinal, isRetracted)
  { citations := if step2.1 == 0 then citedByVal else step2.1
    doiFinal := step2.2.1
    isRetracted := step2.2.2 }

/-- The value asserted by the spec for the final retraction flag: the OR of
the retraction flags reported by every attempted lookup step (stated from
the spec's words, to be compared with `resolveCitations`). -/
def attemptedFlagsOr (doiFinal : String) (byDoi : SSByDoi)
    (byTitle : SSByTitle) : Bool :=
  (doiStepAttempted doiFinal && byDoi.isRetracted) ||
    (titleStepAttempted doiFinal byDoi && byTitle.isRetracted)

/-- Title merge (app.py line 271):
`(cr.get("title", [""])[0]) if cr.get("title") else title_serp`.
The Crossref `title` value is an optional list of strings; a missing key or
an empty list is falsy and falls back to the stub title. -/
def title_cr (crTitle : Option (List String)) (titleSerp : String) : String :=
  match crTitle with
  | some (t :: _) => t
  | _ => titleSerp

/-- First entry of a Crossref `date-parts` field, as read by
`cr.get(k, {}).get('date-parts', [[None]])[0][0]` (app.py line 279).
`none` input models an absent field, whose default `[[None]]` yields `None`;
`.error` models the `IndexError` raised when the list or its first element
is empty, which the surrounding `try` turns into `year = None`. -/
def firstDatePart : Option (List (List (Option Int))) → Except Unit (Option Int)
  | none => .ok none
  | some [] => .error ()
  | some ([] :: _) => .error ()
  | some ((x :: _) :: _) => .ok x

/-- The `or`-chain over the two Crossref date fields inside the `try` block
(app.py lines 278-281); any `IndexError` collapses the whole chain to
`None`. -/
def crYearChain (issuedDp ppDp : Option (List (List (Option Int)))) : Option Int :=
  match firstDatePart issuedDp with
  | .error _ => none
  | .ok a =>
    if intTruthy a then a
    else
      match firstDatePart ppDp with
      | .error _ => none
      | .ok b => b

/-- Year resolution (app.py lines 277-283 and line 327): Crossref chain
first; if falsy, `art.get("year") or art.get("publication", {}).get("year")`;
finally `int(year) if year else None`, which maps every falsy value
(including `0`) to `None`. -/
def resolveYear (issuedDp ppDp : Option (List (List (Option Int))))
    (stubYear stubPubYear : Option Int) : Option Int :=
  let yr := crYearChain issuedDp ppDp
  let yr2 := if intTruthy yr then yr
    else if intTruthy stubYear then stubYear else stubPubYear
  if intTruthy yr2 then yr2 else none

/-- First truthy value of a list of optional integers, `none` when every
entry is falsy (stated from the spec's words: the priority chain evaluated
first-match-wins). -/
def firstTruthy : List (Option Int) → Option Int
  | [] => none
  | x :: xs => if intTruthy x then x else firstTruthy xs

/-- `compute_cpy` (app.py lines 142-149): `0.0` when the year is falsy
(`None` or `0`) or citations are `None`, else
`float(citations) / max(1, CURRENT_YEAR - int(year) + 1)`.  The global
`CURRENT_YEAR` is the `refYear` parameter. -/
def compute_cpy (citations : Option ℚ) (year : Option Int) (refYear : Int) : ℚ :=
  match year, citations with
  | some y, some c => if y = 0 then 0 else c / ((max 1 (refYear - y + 1) : ℤ) : ℚ)
  | _, _ => 0

/-- Outcome of the single HTTP GET inside `fetch_unpaywall`: an exception,
or a response with a status code and the optional `is_oa` JSON field. -/
inductive HttpOutcome where
  | failure : HttpOutcome
  | response (status : Nat) (is_oa_field : Option Bool) : HttpOutcome

/-- `fetch_unpaywall` (app.py lines 130-140): `False` for a falsy DOI;
otherwise `bool(r.json().get("is_oa", False))` on a 200 response and
`False` on any other status or on an exception. -/
def fetch_unpaywall (doi : String) (outcome : HttpOutcome) : Bool :=
  if doi = "" then false
  else
    match outcome with
    | .failure => false
    | .response status oa => if status = 200 then oa.getD false else false

/-- The call site `is_oa = fetch_unpaywall(doi_final, ...) if doi_final else
False` (app.py line 315). -/
def is_oa_callsite (doiFinal : String) (outcome : HttpOutcome) : Bool :=
  if doiFinal = "" then false else fetch_unpaywall doiFinal outcome

/-- Weight of the log-normalized citation component `C` (app.py line 158). -/
noncomputable def wC : ℝ := 0.25

/-- Weight of the journal-quality placeholder `J` (app.py line 158). -/
noncomputable def wJ : ℝ := 0.20

/-- Weight of the openness sub-score `D` (app.py line 158). -/
noncomputable def wD : ℝ := 0.15

/-- Weight of the non-retraction sub-score `R` (app.py line 158). -/
noncomputable def wR : ℝ := 0.20

/-- Weight of the funder-presence sub-score `F` (app.py line 158). -/
noncomputable def wF : ℝ := 0.10

/-- Weight of the affiliation-completeness sub-score `O` (app.py line 158). -/
noncomputable def wO : ℝ := 0.05

/-- Weight of the provenance placeholder `P` (app.py line 158). -/
noncomputable def wP : ℝ := 0.05

/-- The log-normalized citation component (app.py lines 153-156):
`log1p(cpy) / log1p(max_cpy)` when `max_cpy` is truthy and positive,
else `0.0`. -/
noncomputable def logC (cpy max_cpy : ℝ) : ℝ :=
  if 0 < max_cpy then Real.log (1 + cpy) / Real.log (1 + max_cpy) else 0

/-- Python `round(x, 2)`: round to the nearest multiple of `1/100`. -/
noncomputable def round2 (x : ℝ) : ℝ := ((round (x * 100) : ℤ) : ℝ) / 100

/-- `compute_rim_with_logC` (app.py lines 151-160): the weighted sum of the
seven sub-scores, times 100, rounded to two decimals. -/
noncomputable def compute_rim_with_logC (cpy max_cpy J D R F O P : ℝ) : ℝ :=
  round2 ((wC * logC cpy max_cpy + wJ * J + wD * D + wR * R
    + wF * F + wO * O + wP * P) * 100)

/-- `Risk_Factor` (app.py lines 358-359): `1 - RIM/100`, then
`.clip(0, 1)` (lower bound first, then upper bound). -/
noncomputable def risk_factor (rim : ℝ) : ℝ := min (max (1 - rim / 100) 0) 1

/-! ## Theorems -/

/-- If an optional integer passes the Python truthiness gate and comes out
as `some y`, then `y ≠ 0`. -/
lemma truthyGate_ne_zero (o : Option Int) (y : Int)
    (h : (if intTruthy o then o else none) = some y) : y ≠ 0 := by
  by_cases ht : intTruthy o = true
  · rw [if_pos ht] at h
    subst h
    simp [intTruthy] at ht
    exact ht
  · rw [if_neg ht] at h
    cases h

/-- C3 (counterexample): with no DOI, a title lookup reporting zero citations
and a retraction flag is attempted, yet its flag is dropped (the merge is
guarded by `if sc_cit:`), so the final flag is not the OR of the flags of
every attempted step. -/
theorem C3_retraction_counterexample :
    attemptedFlagsOr "" ⟨0, none, false⟩ ⟨0, none, true, none, none⟩ = true ∧
    (resolveCitations "" 0 ⟨0, none, false⟩
      ⟨0, none, true, none, none⟩).isRetracted = false := by
  constructor <;> rfl

/-- C3 (amended): the final retraction flag is the OR of the DOI-step flag
(when that step is attempted) and the title-step flag when the title step is
attempted and returns a non-zero citation count; in particular the flag is
sticky — once the DOI step sets it, the result is true. -/
theorem C3_retraction_amended (doiF : String) (citedBy : Int)
    (byDoi : SSByDoi) (byTitle : SSByTitle) :
    (resolveCitations doiF citedBy byDoi byTitle).isRetracted =
      ((doiStepAttempted doiF && byDoi.isRetracted) ||
        (titleStepAttempted doiF byDoi && (byTitle.citationCount != 0)
          && byTitle.isRetracted)) ∧
    (doiStepAttempted doiF = true → byDoi.isRetracted = true →
      (resolveCitations doiF citedBy byDoi byTitle).isRetracted = true) := by
  have key : (resolveCitations doiF citedBy byDoi byTitle).isRetracted =
      ((doiStepAttempted doiF && byDoi.isRetracted) ||
        (titleStepAttempted doiF byDoi && (byTitle.citationCount != 0)
          && byTitle.isRetracted)) := by
    by_cases hd : doiF = "" <;> by_cases ht : byTitle.citationCount = 0 <;>
      by_cases hcc : byDoi.citationCount = 0 <;>
      cases hr : byDoi.isRetracted <;> cases hr2 : byTitle.isRetracted <;>
      simp [resolveCitations, afterDoiStep, titleStepAttempted,
        doiStepAttempted, hd, ht, hcc, hr, hr2]
  refine ⟨key, fun h1 h2 => ?_⟩
  rw [key, h1, h2]
  simp

/-- C3 (amended, witness): a retraction reported by the DOI-based step at a
concrete input survives to the final record. -/
theorem C3_retraction_amended_witness :
    (resolveCitations "10.1000/x" 0 ⟨0, none, true⟩
      ⟨0, none, false, none, none⟩).isRetracted = true :=
  (C3_retraction_amended "10.1000/x" 0 ⟨0, none, true⟩
    ⟨0, none, false, none, none⟩).2 rfl rfl

/-- C4: when a DOI is present and the DOI-based lookup returns a non-zero
citation count, the title-based lookup is not attempted and the resolution
outcome does not depend on the title-lookup result. -/
theorem C4_doi_hit_skips_title (doiF : String) (citedBy : Int)
    (byDoi : SSByDoi) (t1 t2 : SSByTitle)
    (hd : doiF ≠ "") (hc : byDoi.citationCount ≠ 0) :
    titleStepAttempted doiF byDoi = false ∧
    resolveCitations doiF citedBy byDoi t1 =
      resolveCitations doiF citedBy byDoi t2 := by
  have ha : titleStepAttempted doiF byDoi = false := by
    simp [titleStepAttempted, afterDoiStep, hd, hc]
  exact ⟨ha, by simp [resolveCitations, ha]⟩

/-- C4 (witness): concrete instance with a resolved DOI, 3 citations from
the DOI lookup, and two maximally different title-lookup results. -/
theorem C4_doi_hit_skips_title_witness :
    titleStepAttempted "10.1000/x" ⟨3, none, false⟩ = false ∧
    resolveCitations "10.1000/x" 7 ⟨3, none, false⟩
        ⟨9, none, true, some "10.2/z", none⟩ =
      resolveCitations "10.1000/x" 7 ⟨3, none, false⟩
        ⟨0, none, false, none, none⟩ :=
  C4_doi_hit_skips_title "10.1000/x" 7 ⟨3, none, false⟩
    ⟨9, none, true, some "10.2/z", none⟩ ⟨0, none, false, none, none⟩
    (by decide) (by decide)

/-- C5: Scenario A — a stub whose `cited_by.value` is 12, no discoverable
DOI, and empty registry/citation lookups yields `citations = 12` (stub
fallback), `doi = ""`, and `isOpenAccess = false` at the call site. -/
theorem C5_scenarioA :
    doi_final none none = "" ∧
    extract_cited_by (.asDict (some 12)) = 12 ∧
    resolveCitations "" 12 ⟨0, none, false⟩ ⟨0, none, false, none, none⟩ =
      ⟨12, "", false⟩ ∧
    ∀ outcome, is_oa_callsite "" outcome = false := by
  refine ⟨rfl, rfl, rfl, fun outcome => rfl⟩

/-- C6 (counterexample): when the registry returns the title list `[""]`
(truthy, so the registry wins) and the stub title is non-empty, the merged
title is empty although the stub title is not. -/
theorem C6_title_counterexample :
    title_cr (some [""]) "A Real Title" = "" ∧
    ("A Real Title" : String) ≠ "" := by
  exact ⟨rfl, by decide⟩

/-- C6 (amended): the merged title is the first element of the registry
title list when that list is present and non-empty, else the stub title;
the merged title is empty only when the selected source's value is empty
(the registry's first title, or — with no usable registry title — the stub
title). -/
theorem C6_title_amended (crTitle : Option (List String)) (titleSerp : String) :
    (∀ t rest, crTitle = some (t :: rest) → title_cr crTitle titleSerp = t) ∧
    ((crTitle = none ∨ crTitle = some []) →
      title_cr crTitle titleSerp = titleSerp) ∧
    (title_cr crTitle titleSerp = "" →
      (∃ rest, crTitle = some ("" :: rest)) ∨ titleSerp = "") := by
  rcases crTitle with _ | ⟨_ | ⟨t, rest⟩⟩
  · refine ⟨fun t rest h => ?_, fun _ => rfl, fun h => Or.inr h⟩
    exact nomatch h
  · refine ⟨fun t rest h => ?_, fun _ => rfl, fun h => Or.inr h⟩
    simp at h
  · refine ⟨fun t' rest' h => ?_, fun h => ?_, fun h => ?_⟩
    · simp only [Option.some.injEq, List.cons.injEq] at h
      exact h.1
    · rcases h with h | h <;> simp at h
    · have h' : t = "" := h
      exact Or.inl ⟨rest, by rw [h']⟩

/-- C6 (amended, witness): a present registry title wins at a concrete
input. -/
theorem C6_title_amended_witness :
    title_cr (some ["Registry Title"]) "Stub Title" = "Registry Title" :=
  (C6_title_amended (some ["Registry Title"]) "Stub Title").1
    "Registry Title" [] rfl

/-- C7 (counterexample): a stub year of 5 flows through the priority chain
unvalidated, so the merged year is `some 5`, which is not a 4-digit year. -/
theorem C7_year_counterexample :
    resolveYear none none (some 5) none = some 5 ∧
    ¬ (1000 ≤ (5 : Int) ∧ (5 : Int) ≤ 9999) := by
  exact ⟨rfl, by decide⟩

/-- C7 (amended): the merged year is never `some 0` (falsy values collapse
to `none`, never to 0), and — when neither Crossref date field raises — it
is the first truthy value of the chain issued, published-print, stub year,
stub nested publication year, else `none`.  No 4-digit validation is
performed. -/
theorem C7_year_amended (issuedDp ppDp : Option (List (List (Option Int))))
    (stubYear stubPubYear : Option Int) :
    (∀ y, resolveYear issuedDp ppDp stubYear stubPubYear = some y → y ≠ 0) ∧
    (∀ a b, firstDatePart issuedDp = .ok a → firstDatePart ppDp = .ok b →
      resolveYear issuedDp ppDp stubYear stubPubYear =
        firstTruthy [a, b, stubYear, stubPubYear]) := by
  constructor
  · intro y hy
    exact truthyGate_ne_zero _ y hy
  · intro a b ha hb
    have hc : crYearChain issuedDp ppDp = if intTruthy a then a else b := by
      simp [crYearChain, ha, hb]
    simp only [resolveYear, hc, firstTruthy]
    by_cases h1 : intTruthy a <;> by_cases h2 : intTruthy b <;>
      by_cases h3 : intTruthy stubYear <;>
      by_cases h4 : intTruthy stubPubYear <;>
      simp [h1, h2, h3, h4]

/-- C7 (amended, witness): a 4-digit Crossref issued year wins at a
concrete input. -/
theorem C7_year_amended_witness :
    resolveYear (some [[some 2020]]) none none none =
      firstTruthy [some 2020, none, none, none] :=
  (C7_year_amended (some [[some 2020]]) none none none).2
    (some 2020) none rfl rfl

/-- C8: with a truthy (non-zero, present) year, `compute_cpy` divides the
citation count by `max 1 (refYear - year + 1)`; the denominator is strictly
positive (so also for years after the reference year); with an absent year
the result is 0. -/
theorem C8_cpy_clamped_denominator (c : ℚ) (y refYear : Int) (hy : y ≠ 0) :
    compute_cpy (some c) (some y) refYear =
      c / ((max 1 (refYear - y + 1) : ℤ) : ℚ) ∧
    (0 : ℤ) < max 1 (refYear - y + 1) ∧
    (∀ cits, compute_cpy cits none refYear = 0) := by
  refine ⟨by simp [compute_cpy, hy], lt_of_lt_of_le zero_lt_one (le_max_left _ _),
    fun cits => ?_⟩
  cases cits <;> rfl

/-- C8 (witness): a paper dated 2030 with reference year 2025 — the raw
span is negative, the clamped denominator is 1. -/
theorem C8_cpy_clamped_denominator_witness :
    compute_cpy (some 10) (some 2030) 2025 =
      10 / ((max 1 (2025 - 2030 + 1) : ℤ) : ℚ) ∧
    (0 : ℤ) < max 1 (2025 - 2030 + 1) ∧
    (∀ cits, compute_cpy cits none 2025 = 0) :=
  C8_cpy_clamped_denominator 10 2030 2025 (by decide)

/-- C9: the openness resolver returns `false` for an absent (empty) DOI,
`false` on a transport failure, and `false` on any non-200 response; being
a total function into `Bool`, it never raises. -/
theorem C9_unpaywall_never_raises (doi : String) (outcome : HttpOutcome) :
    (doi = "" → fetch_unpaywall doi outcome = false) ∧
    fetch_unpaywall doi .failure = false ∧
    (∀ status oa, status ≠ 200 →
      fetch_unpaywall doi (.response status oa) = false) := by
  refine ⟨fun h => by simp [fetch_unpaywall, h], ?_, fun status oa hs => ?_⟩
  · by_cases h : doi = "" <;> simp [fetch_unpaywall, h]
  · by_cases h : doi = "" <;> simp [fetch_unpaywall, h, hs]

/-- C9 (witness): concrete instance at the empty DOI and a failed call. -/
theorem C9_unpaywall_never_raises_witness :
    fetch_unpaywall "" .failure = false :=
  (C9_unpaywall_never_raises "" .failure).1 rfl

/-- Rounding to the nearest integer is monotone. -/
lemma round_monotone {x y : ℝ} (h : x ≤ y) : round x ≤ round y := by
  rw [round_eq, round_eq]
  exact Int.floor_le_floor (by linarith)

/-- `round2` of a nonnegative number is nonnegative. -/
lemma round2_nonneg {x : ℝ} (h : 0 ≤ x) : 0 ≤ round2 x := by
  unfold round2
  have h1 : (0 : ℤ) ≤ round (x * 100) := by
    have h2 := round_monotone (show (0 : ℝ) ≤ x * 100 by nlinarith)
    simpa using h2
  have h3 : (0 : ℝ) ≤ ((round (x * 100) : ℤ) : ℝ) := by exact_mod_cast h1
  linarith

/-- `round2` never exceeds an integer bound on its argument. -/
lemma round2_le_intCast {x : ℝ} {n : ℤ} (h : x ≤ (n : ℝ)) : round2 x ≤ (n : ℝ) := by
  unfold round2
  rw [div_le_iff₀ (by norm_num : (0 : ℝ) < 100)]
  have h1 : round (x * 100) ≤ round ((n : ℝ) * 100) :=
    round_monotone (by nlinarith)
  have h2 : round ((n : ℝ) * 100) = n * 100 := by
    rw [show ((n : ℝ) * 100) = ((n * 100 : ℤ) : ℝ) by push_cast; ring,
      round_intCast]
  rw [h2] at h1
  exact_mod_cast h1

/-- The log-normalized citation component is nonnegative for a nonnegative
CPY. -/
lemma logC_nonneg {cpy max_cpy : ℝ} (h0 : 0 ≤ cpy) : 0 ≤ logC cpy max_cpy := by
  unfold logC
  split_ifs with h
  · exact div_nonneg (Real.log_nonneg (by linarith))
      (Real.log_nonneg (by linarith))
  · exact le_rfl

/-- The log-normalized citation component is at most 1 when the CPY does
not exceed the batch maximum. -/
lemma logC_le_one {cpy max_cpy : ℝ} (h0 : 0 ≤ cpy) (h1 : cpy ≤ max_cpy) :
    logC cpy max_cpy ≤ 1 := by
  unfold logC
  split_ifs with h
  · rw [div_le_one (Real.log_pos (by linarith))]
    exact Real.log_le_log (by linarith) (by linarith)
  · exact zero_le_one

/-- C1: the seven weights sum to 1, and with every explicit sub-score in
[0,1] and a CPY between 0 and the batch maximum (so that the derived
component `C` is also in [0,1]), the RIM score lies in [0,100]. -/
theorem C1_rim_in_range (cpy max_cpy J D R F O P : ℝ)
    (hc0 : 0 ≤ cpy) (hcm : cpy ≤ max_cpy)
    (hJ0 : 0 ≤ J) (hJ1 : J ≤ 1) (hD0 : 0 ≤ D) (hD1 : D ≤ 1)
    (hR0 : 0 ≤ R) (hR1 : R ≤ 1) (hF0 : 0 ≤ F) (hF1 : F ≤ 1)
    (hO0 : 0 ≤ O) (hO1 : O ≤ 1) (hP0 : 0 ≤ P) (hP1 : P ≤ 1) :
    wC + wJ + wD + wR + wF + wO + wP = 1 ∧
    0 ≤ compute_rim_with_logC cpy max_cpy J D R F O P ∧
    compute_rim_with_logC cpy max_cpy J D R F O P ≤ 100 := by
  have hC0 := @logC_nonneg cpy max_cpy hc0
  have hC1 := logC_le_one hc0 hcm
  unfold compute_rim_with_logC
  refine ⟨by norm_num [wC, wJ, wD, wR, wF, wO, wP], ?_, ?_⟩
  · apply round2_nonneg
    simp only [wC, wJ, wD, wR, wF, wO, wP]
    nlinarith
  · have hle : (wC * logC cpy max_cpy + wJ * J + wD * D + wR * R
        + wF * F + wO * O + wP * P) * 100 ≤ (((100 : ℤ) : ℝ)) := by
      simp only [wC, wJ, wD, wR, wF, wO, wP]
      push_cast
      nlinarith
    have h2 := round2_le_intCast hle
    simpa using h2

/-- C1 (witness): concrete record with every sub-score 0 and an empty
batch maximum. -/
theorem C1_rim_in_range_witness :
    0 ≤ compute_rim_with_logC 0 0 0 0 0 0 0 0 ∧
    compute_rim_with_logC 0 0 0 0 0 0 0 0 ≤ 100 :=
  ⟨(C1_rim_in_range 0 0 0 0 0 0 0 0 le_rfl le_rfl le_rfl zero_le_one le_rfl
      zero_le_one le_rfl zero_le_one le_rfl zero_le_one le_rfl zero_le_one
      le_rfl zero_le_one).2.1,
    (C1_rim_in_range 0 0 0 0 0 0 0 0 le_rfl le_rfl le_rfl zero_le_one le_rfl
      zero_le_one le_rfl zero_le_one le_rfl zero_le_one le_rfl zero_le_one
      le_rfl zero_le_one).2.2⟩

/-- C2: the risk factor is `1 - rim/100` clamped to [0,1]; in particular it
is 1 at `rim = 0`, 0 at `rim = 100`, and the clamp is the identity for
`rim ∈ [0,100]`. -/
theorem C2_risk_factor_clamp (rim : ℝ) :
    risk_factor rim = max 0 (min 1 (1 - rim / 100)) ∧
    risk_factor 0 = 1 ∧ risk_factor 100 = 0 ∧
    (0 ≤ rim → rim ≤ 100 → risk_factor rim = 1 - rim / 100) := by
  refine ⟨?_, by norm_num [risk_factor], by norm_num [risk_factor],
    fun h1 h2 => ?_⟩
  · unfold risk_factor
    rcases le_total (1 - rim / 100) 0 with h | h <;>
      rcases le_total (1 - rim / 100) 1 with h2 | h2 <;>
      simp [min_def, max_def] <;> split_ifs <;> linarith
  · unfold risk_factor
    rw [max_eq_left (by linarith), min_eq_left (by linarith)]

/-- C2 (witness): at `rim = 0` the clamp is the identity and the risk
factor is `1 - 0/100`. -/
theorem C2_risk_factor_clamp_witness : risk_factor 0 = 1 - 0 / 100 :=
  (C2_risk_factor_clamp 0).2.2.2 le_rfl (by norm_num)

/-- C10: with the call site's fixed placeholders `J = 0.5` and `P = 0` and
every real sub-score at most 1, the RIM score is at most 85 — the weighted
sum cannot exceed 0.25 + 0.10 + 0.15 + 0.20 + 0.10 + 0.05 = 0.85. -/
theorem C10_rim_le_85 (cpy max_cpy D R F O : ℝ)
    (hc0 : 0 ≤ cpy) (hcm : cpy ≤ max_cpy)
    (hD : D ≤ 1) (hR : R ≤ 1) (hF : F ≤ 1) (hO : O ≤ 1) :
    compute_rim_with_logC cpy max_cpy 0.5 D R F O 0 ≤ 85 := by
  have hC1 := logC_le_one hc0 hcm
  unfold compute_rim_with_logC
  have hle : (wC * logC cpy max_cpy + wJ * 0.5 + wD * D + wR * R
      + wF * F + wO * O + wP * 0) * 100 ≤ (((85 : ℤ) : ℝ)) := by
    simp only [wC, wJ, wD, wR, wF, wO, wP]
    push_cast
    nlinarith
  have h2 := round2_le_intCast hle
  simpa using h2

/-- C10 (witness): concrete record with retraction, no openness, no funder,
no affiliations and zero CPY under the call site's fixed placeholders. -/
theorem C10_rim_le_85_witness :
    compute_rim_with_logC 0 0 0.5 0 0 0 0 0 ≤ 85 :=
  C10_rim_le_85 0 0 0 0 0 0 le_rfl le_rfl zero_le_one zero_le_one
    zero_le_one zero_le_one

end ScholarMetrics
